import Mathlib

/-!
Shallow embedding of `irgsh/builders/pbuilder.py` (class `Pbuilder`) from the
python-irgsh repository, together with theorems checking the natural-language
specification against it.

Modelling conventions:
* Python strings are Lean `String`s; `os.path.join(a, b)` is modelled as
  `a ++ "/" ++ b` (the path arguments used by this code are relative names
  without leading slashes, where `os.path.join` concatenates with a separator);
  `os.path.join(a)` with a single argument is `a` itself, exactly as in Python.
* The filesystem is an explicit state: a set of existing directories and a
  partial map from paths to file contents.  `os.makedirs` is modelled as
  marking the path as an existing directory (creation of intermediate parent
  directories is elided: no claim depends on it), `open(f,'w');write;close` as
  a wholesale replacement of the file content.
* Subprocess execution (`Popen` + `communicate`) is modelled by an explicit
  invoker function `List String → Int` mapping a command-line vector to the
  subprocess exit code; `build` records the invocations it makes in a trace.
* `logging` error-severity output of `build` is modelled as a list of rendered
  log lines (debug-severity lines are not modelled; no claim mentions them).
-/

namespace Irgsh

/-- The distribution profile value object consumed by `Pbuilder`
(fields read by the code: `name`, `mirror`, `dist`, `components`, `extra`). -/
structure Distribution where
  name : String
  mirror : String
  dist : String
  components : List String
  extra : List String
deriving DecidableEq, Repr

/-- The keyword options passed to `Pbuilder.__init__` (`**opts`): `keyring` is
read with `opts['keyring']` (mandatory access), the other three with
`opts.get(..., None)` (optional). -/
structure Opts where
  keyring : Option String := none
  debootstrap : Option String := none
  mirror : Option String := none
  arch : Option String := none
deriving DecidableEq, Repr

/-- The constructed builder: the fields `__init__` stores on `self` once the
mandatory `keyring` lookup has succeeded.  (`os.path.abspath` is modelled as
the identity: callers supply absolute roots.) -/
structure Pbuilder where
  distribution : Distribution
  pbuilder_path : String
  keyring : String
  debootstrap : Option String
  mirror : Option String
  arch : Option String
deriving DecidableEq, Repr

/-- The eager construction-time failure: `self.keyring = opts['keyring']`
raises Python's builtin `KeyError` when no keyring option was supplied; the
spec's error taxonomy names this eager typed rejection `ConfigurationError`. -/
inductive ConfigurationError where
  | missingKeyring
deriving DecidableEq, Repr

/-- `Pbuilder(distribution, pbuilder_path, **opts)`: the constructor body.
It fails eagerly (before any subprocess is ever involved) exactly when
`opts['keyring']` is absent. -/
def Pbuilder.construct (distribution : Distribution) (pbuilder_path : String)
    (opts : Opts) : Except ConfigurationError Pbuilder :=
  match opts.keyring with
  | none => .error .missingKeyring
  | some k =>
      .ok { distribution := distribution, pbuilder_path := pbuilder_path,
            keyring := k, debootstrap := opts.debootstrap,
            mirror := opts.mirror, arch := opts.arch }

/-- `os.path.join` on one relative component. -/
def joinPath (p s : String) : String := p ++ "/" ++ s

/-- `self.path = os.path.join(self.pbuilder_path, self.distribution.name)`. -/
def Pbuilder.path (b : Pbuilder) : String := joinPath b.pbuilder_path b.distribution.name

/-- `self.configfile = os.path.join(self.path, 'pbuilder.conf')`. -/
def Pbuilder.configfile (b : Pbuilder) : String := joinPath b.path "pbuilder.conf"

/-- `Pbuilder.get_extra_pbuilder_cmd`: appends a two-token flag pair for each
of the three optional overrides that was supplied, nothing otherwise. -/
def Pbuilder.get_extra_pbuilder_cmd (b : Pbuilder) : List String :=
  (match b.debootstrap with
   | some d => ["--debootstrap", d]
   | none => []) ++
  (match b.mirror with
   | some m => ["--mirror", m]
   | none => []) ++
  (match b.arch with
   | some a => ["--architecture", a]
   | none => [])

/-- The command-line vector built by `Pbuilder.create`. -/
def Pbuilder.createCmd (b : Pbuilder) : List String :=
  ["sudo", "pbuilder", "--create",
   "--configfile", b.configfile,
   "--debootstrapopts", "--keyring=" ++ b.keyring] ++ b.get_extra_pbuilder_cmd

/-- The command-line vector built by `Pbuilder.update`. -/
def Pbuilder.updateCmd (b : Pbuilder) : List String :=
  ["sudo", "pbuilder", "--update", "--override-config",
   "--configfile", b.configfile,
   "--debootstrapopts", "--keyring=" ++ b.keyring] ++ b.get_extra_pbuilder_cmd

/-- The command-line vector built by `Pbuilder.build` for the build-mode
subprocess. -/
def Pbuilder.buildCmd (b : Pbuilder) (dsc resultdir : String) : List String :=
  ["sudo", "pbuilder", "--build",
   "--configfile", b.configfile,
   "--buildresult", resultdir,
   "--debootstrapopts", "--debbuildopts -I -i -j9"] ++
  b.get_extra_pbuilder_cmd ++ [dsc]

/-- The `escape` helper defined inside `Pbuilder.init`: wrap the value in
double quotes when it contains a space, otherwise return it unchanged. -/
def escape (value : String) : String :=
  if value.data.contains ' ' then "\"" ++ value ++ "\"" else value

/-- `' '.join(self.distribution.components)`. -/
def Pbuilder.componentsValue (b : Pbuilder) : String :=
  String.intercalate " " b.distribution.components

/-- `' | '.join(self.distribution.extra)` (note: pipe surrounded by spaces). -/
def Pbuilder.othermirror (b : Pbuilder) : String :=
  String.intercalate " | " b.distribution.extra

/-- The `config` mapping built by `Pbuilder.init`, as a key/value list in the
insertion order of the Python dict literal.  (CPython iterates a `dict` in an
order that is deterministic for a fixed key set; the spec leaves the ordering
unspecified, and only determinism matters for the claims, so insertion order
is used here.) -/
def Pbuilder.configPairs (b : Pbuilder) : List (String × String) :=
  [("BASETGZ", joinPath b.path "base.tgz"),
   ("APTCACHE", joinPath b.path "aptcache"),
   ("BUILDRESULT", joinPath b.path "result"),
   ("BUILDPLACE", joinPath b.path "build"),
   ("HOOKDIR", joinPath b.path "hook"),
   ("MIRRORSITE", b.distribution.mirror),
   ("DISTRIBUTION", b.distribution.dist),
   ("COMPONENTS", b.componentsValue),
   ("OTHERMIRROR", b.othermirror)]

/-- The full text written to `pbuilder.conf`:
`'\n'.join(['%s=%s' % (key, escape(value)) for key, value in config.items()])`. -/
def Pbuilder.configContent (b : Pbuilder) : String :=
  String.intercalate "\n"
    (b.configPairs.map (fun kv => kv.1 ++ "=" ++ escape kv.2))

/-- A minimal JSON rendering of a string (the names serialized by this code
contain no characters that `json.dumps` would escape). -/
def jsonStr (s : String) : String := "\"" ++ s ++ "\""

/-- JSON rendering of a list of strings, as `json.dumps` renders a Python
list. -/
def jsonList (l : List String) : String :=
  "[" ++ String.intercalate ", " (l.map jsonStr) ++ "]"

/-- The text written to `distribution.json` by `Pbuilder.init`
(`json.dumps` of the five-field dict, in insertion order). -/
def distributionJson (d : Distribution) : String :=
  "\x7b" ++ jsonStr "name" ++ ": " ++ jsonStr d.name ++ ", " ++
  jsonStr "mirror" ++ ": " ++ jsonStr d.mirror ++ ", " ++
  jsonStr "dist" ++ ": " ++ jsonStr d.dist ++ ", " ++
  jsonStr "components" ++ ": " ++ jsonList d.components ++ ", " ++
  jsonStr "extra" ++ ": " ++ jsonList d.extra ++ "\x7d"

/-- The explicit filesystem state: which paths exist as directories, and the
contents of regular files. -/
@[ext] structure FS where
  dirs : String → Bool
  files : String → Option String

/-- `os.path.exists`: true if the path is a directory or a regular file. -/
def FS.pathExists (fs : FS) (p : String) : Bool :=
  fs.dirs p || (fs.files p).isSome

/-- `os.makedirs(p)` (creation of intermediate parents elided). -/
def FS.makedirs (fs : FS) (p : String) : FS :=
  { fs with dirs := fun q => if q = p then true else fs.dirs q }

/-- `open(p, 'w'); f.write(c); f.close()`: wholesale replacement of the file
content. -/
def FS.writeFile (fs : FS) (p c : String) : FS :=
  { fs with files := fun q => if q = p then some c else fs.files q }

/-- Read a file's content, if the file exists. -/
def FS.readFile (fs : FS) (p : String) : Option String := fs.files p

/-- A filesystem with no directories and no files. -/
def FS.empty : FS := { dirs := fun _ => false, files := fun _ => none }

/-- The list `paths` built by `Pbuilder.init`.  Transcribed faithfully: the
list comprehension is `[os.path.join(self.path) for path in
['aptcache', 'result', 'build', 'hook']]` — the loop variable `path` is never
used, so every element is `self.path` itself. -/
def Pbuilder.initPaths (b : Pbuilder) : List String :=
  [b.path] ++ (["aptcache", "result", "build", "hook"].map (fun _ => b.path))

/-- The directory-creation loop of `Pbuilder.init`:
`for path in paths: if not os.path.exists(path): os.makedirs(path)`. -/
def Pbuilder.initDirs (b : Pbuilder) (fs : FS) : FS :=
  b.initPaths.foldl
    (fun f p => if f.pathExists p then f else f.makedirs p) fs

/-- `Pbuilder.init`: create the directory structure, then overwrite
`distribution.json`, then overwrite `pbuilder.conf`. -/
def Pbuilder.init (b : Pbuilder) (fs : FS) : FS :=
  let fs1 := b.initDirs fs
  let fs2 := fs1.writeFile (joinPath b.path "distribution.json")
    (distributionJson b.distribution)
  fs2.writeFile b.configfile b.configContent

/-- The typed build-failure error.  Its class lives in
`irgsh/builders/__init__.py`; the raise site in `Pbuilder.build` is
`raise BuildFailedError(dsc)`, passing exactly one value — the source package
locator — so that is the error's entire payload. -/
structure BuildFailedError where
  dsc : String
deriving DecidableEq, Repr

/-- Modelled from the spec: `get_changes_file` is defined on `BaseBuilder` in
`irgsh/builders/__init__.py`, which is not part of the given sources.  The
spec says the build "resolves and returns the path to the artifact manifest
('changes file') that the external tool is contractually known to produce
alongside the source locator's basename pattern": the `.dsc` locator's name
pattern with the changes-file extension. -/
def get_changes_file (dsc : String) : String :=
  (if ".dsc".data.isSuffixOf dsc.data then
    String.mk (dsc.data.take (dsc.data.length - 4))
  else dsc) ++ ".changes"

/-- One observable step of a `build` call, with the subprocess command-line
vector where one is spawned. -/
inductive Step where
  | initStep
  | createStep (cmd : List String)
  | updateStep (cmd : List String)
  | buildStep (cmd : List String)
deriving DecidableEq, Repr

/-- The observable result of a `build` call: the ordered trace of steps, the
error-severity log lines emitted, and either the raised `BuildFailedError` or
the returned changes-file path. -/
structure BuildResult where
  trace : List Step
  errorLog : List String
  outcome : Except BuildFailedError String
deriving Repr

/-- `Pbuilder.create(logger)`: spawn the create-mode subprocess and return its
exit code verbatim. -/
def Pbuilder.create (b : Pbuilder) (invoker : List String → Int) : Int :=
  invoker b.createCmd

/-- `Pbuilder.update(logger)`: spawn the update-mode subprocess and return its
exit code verbatim. -/
def Pbuilder.update (b : Pbuilder) (invoker : List String → Int) : Int :=
  invoker b.updateCmd

/-- `Pbuilder.build(dsc, resultdir, logger)`:
run `init`, then create or update `base.tgz` by its presence (the returned
exit code is discarded unread, exactly as in the source), then spawn the
build-mode subprocess; on nonzero exit log an error line naming the locator
and the code and raise `BuildFailedError(dsc)`, on zero exit return
`self.get_changes_file(dsc)`. -/
def Pbuilder.build (b : Pbuilder) (dsc resultdir : String)
    (invoker : List String → Int) (fs : FS) : FS × BuildResult :=
  let fs1 := b.init fs
  let imageStep :=
    if fs1.pathExists (joinPath b.path "base.tgz") then
      let _rc := b.update invoker
      Step.updateStep b.updateCmd
    else
      let _rc := b.create invoker
      Step.createStep b.createCmd
  let cmd := b.buildCmd dsc resultdir
  let rc := invoker cmd
  let trace := [Step.initStep, imageStep, Step.buildStep cmd]
  if rc ≠ 0 then
    (fs1, { trace := trace,
            errorLog := ["Error building package " ++ dsc ++ ": " ++ toString rc],
            outcome := .error { dsc := dsc } })
  else
    (fs1, { trace := trace,
            errorLog := [],
            outcome := .ok (get_changes_file dsc) })

/-- The three optional-override flag tokens emitted by
`get_extra_pbuilder_cmd`. -/
def flagToks : List String := ["--debootstrap", "--mirror", "--architecture"]

/-- A concrete distribution profile for instantiating theorems (the profile
used by the module's own `_test_run`, with two extra repositories added so the
extra-repository rendering is exercised). -/
def sampleDistribution : Distribution :=
  { name := "lucid", mirror := "http://mirror.example/ubuntu/", dist := "lucid",
    components := ["main", "universe"], extra := ["A", "B"] }

/-- A concrete builder instance for instantiating theorems. -/
def sampleBuilder : Pbuilder :=
  { distribution := sampleDistribution, pbuilder_path := "/pb",
    keyring := "/usr/share/keyrings/k.gpg", debootstrap := none,
    mirror := none, arch := some "amd64" }

/-- A concrete builder with no optional overrides supplied. -/
def bareBuilder : Pbuilder :=
  { distribution := sampleDistribution, pbuilder_path := "/pb",
    keyring := "/usr/share/keyrings/k.gpg", debootstrap := none,
    mirror := none, arch := none }

section Helpers

/-- A `joinPath` result contains a slash, so it never equals a string that
contains none (such as a flag token). -/
theorem joinPath_ne_of_no_slash (p s t : String) (h : '/' ∉ t.data) :
    joinPath p s ≠ t := by
  intro heq
  apply h
  rw [← heq]
  have h1 : (joinPath p s).data = (p.data ++ "/".data) ++ s.data := by
    simp only [joinPath, String.data_append]
  rw [h1]
  exact List.mem_append.mpr (Or.inl (List.mem_append.mpr (Or.inr (by decide))))

/-- The single token `"--keyring=" ++ k` never equals a string whose third
character is not `'k'`. -/
theorem keyring_token_ne (k t : String) (h : t.data[2]? ≠ some 'k') :
    "--keyring=" ++ k ≠ t := by
  intro heq
  apply h
  rw [← heq, String.data_append]
  rw [List.getElem?_append_left (by decide)]
  decide

/-- `joinPath` with the same head and second components of different lengths
yields different paths. -/
theorem joinPath_ne_of_length (p s t : String) (h : s.length ≠ t.length) :
    joinPath p s ≠ joinPath p t := by
  intro heq
  apply h
  have := congrArg String.length heq
  simp only [joinPath, String.length_append] at this
  omega

/-- `joinPath p s` is strictly longer than `p`, hence distinct from it. -/
theorem joinPath_ne_left (p s : String) : joinPath p s ≠ p := by
  intro heq
  have := congrArg String.length heq
  simp only [joinPath, String.length_append] at this
  have h1 : "/".length = 1 := rfl
  omega

/-- Characterization of membership in the adapter output: every token is a
flag token of a supplied option or the supplied option value itself. -/
theorem mem_extra_iff (b : Pbuilder) (x : String) :
    x ∈ b.get_extra_pbuilder_cmd ↔
      ((∃ v, b.debootstrap = some v ∧ (x = "--debootstrap" ∨ x = v)) ∨
       (∃ v, b.mirror = some v ∧ (x = "--mirror" ∨ x = v)) ∨
       (∃ v, b.arch = some v ∧ (x = "--architecture" ∨ x = v))) := by
  rcases hd : b.debootstrap with _ | d <;> rcases hm : b.mirror with _ | m <;>
    rcases ha : b.arch with _ | a <;>
    simp [Pbuilder.get_extra_pbuilder_cmd, hd, hm, ha] <;> tauto

/-- `pathExists` after `writeFile`: true at the written path, unchanged
elsewhere. -/
theorem pathExists_writeFile (fs : FS) (x c p : String) :
    (fs.writeFile x c).pathExists p =
      (if p = x then true else fs.pathExists p) := by
  by_cases h : p = x <;> simp [FS.writeFile, FS.pathExists, h]

/-- The directory-creation loop visits only the root path, so it reduces to a
single conditional `makedirs` of the root. -/
theorem initDirs_eq (b : Pbuilder) (fs : FS) :
    b.initDirs fs =
      if fs.pathExists b.path then fs else fs.makedirs b.path := by
  have hstep : ∀ f : FS,
      (if f.pathExists b.path then f else f.makedirs b.path).pathExists b.path
        = true := by
    intro f
    by_cases h : f.pathExists b.path
    · rwa [if_pos h]
    · rw [if_neg h]
      simp [FS.makedirs, FS.pathExists]
  have collapse : ∀ f : FS, f.pathExists b.path = true →
      (if f.pathExists b.path then f else f.makedirs b.path) = f := by
    intro f h
    simp [h]
  simp only [Pbuilder.initDirs, Pbuilder.initPaths, List.map, List.cons_append,
    List.nil_append, List.foldl]
  rw [collapse _ (hstep fs), collapse _ (hstep fs), collapse _ (hstep fs),
    collapse _ (hstep fs)]

/-- After `init` the per-distribution root exists. -/
theorem pathExists_init_path (b : Pbuilder) (fs : FS) :
    (b.init fs).pathExists b.path = true := by
  have hstep : (b.initDirs fs).pathExists b.path = true := by
    rw [initDirs_eq]
    by_cases h : fs.pathExists b.path
    · rwa [if_pos h]
    · rw [if_neg h]
      simp [FS.makedirs, FS.pathExists]
  simp [Pbuilder.init, pathExists_writeFile]
  exact Or.inr (Or.inr hstep)

/-- `init` unfolded to its three effects (loop, sidecar write, config
write). -/
theorem init_eq (b : Pbuilder) (fs : FS) :
    b.init fs =
      ((b.initDirs fs).writeFile (joinPath b.path "distribution.json")
        (distributionJson b.distribution)).writeFile b.configfile
        b.configContent := rfl

/-- Each flag token has no slash and does not begin with `--k`. -/
theorem flag_char2 (f : String) (hf : f ∈ flagToks) :
    '/' ∉ f.data ∧ f.data[2]? ≠ some 'k' := by
  simp [flagToks] at hf
  rcases hf with rfl | rfl | rfl <;> exact ⟨by decide, by decide⟩

/-- No flag token occurs among the fixed tokens of the create command. -/
theorem flag_not_mem_createBase (b : Pbuilder) (f : String) (hf : f ∈ flagToks) :
    f ∉ (["sudo", "pbuilder", "--create", "--configfile", b.configfile,
      "--debootstrapopts", "--keyring=" ++ b.keyring] : List String) := by
  intro hmem
  have h1 : ¬(f = b.configfile) := fun e =>
    joinPath_ne_of_no_slash b.path "pbuilder.conf" f (flag_char2 f hf).1 e.symm
  have h2 : ¬(f = "--keyring=" ++ b.keyring) := fun e =>
    keyring_token_ne b.keyring f (flag_char2 f hf).2 e.symm
  simp [flagToks] at hf
  rcases hf with rfl | rfl | rfl <;> simp [h1, h2] at hmem

/-- No flag token occurs among the fixed tokens of the update command. -/
theorem flag_not_mem_updateBase (b : Pbuilder) (f : String) (hf : f ∈ flagToks) :
    f ∉ (["sudo", "pbuilder", "--update", "--override-config",
      "--configfile", b.configfile,
      "--debootstrapopts", "--keyring=" ++ b.keyring] : List String) := by
  intro hmem
  have h1 : ¬(f = b.configfile) := fun e =>
    joinPath_ne_of_no_slash b.path "pbuilder.conf" f (flag_char2 f hf).1 e.symm
  have h2 : ¬(f = "--keyring=" ++ b.keyring) := fun e =>
    keyring_token_ne b.keyring f (flag_char2 f hf).2 e.symm
  simp [flagToks] at hf
  rcases hf with rfl | rfl | rfl <;> simp [h1, h2] at hmem

/-- No flag token occurs among the fixed tokens of the build command, given
that the caller-supplied result directory is not itself a flag token. -/
theorem flag_not_mem_buildBase (b : Pbuilder) (resultdir f : String)
    (hf : f ∈ flagToks) (hfr : ¬(f = resultdir)) :
    f ∉ (["sudo", "pbuilder", "--build", "--configfile", b.configfile,
      "--buildresult", resultdir,
      "--debootstrapopts", "--debbuildopts -I -i -j9"] : List String) := by
  intro hmem
  have h1 : ¬(f = b.configfile) := fun e =>
    joinPath_ne_of_no_slash b.path "pbuilder.conf" f (flag_char2 f hf).1 e.symm
  simp [flagToks] at hf
  rcases hf with rfl | rfl | rfl <;> simp [h1, hfr] at hmem

/-- Flag-token counts of the adapter output: one occurrence per supplied
option, none per unset option, provided the supplied option values are not
themselves flag tokens. -/
theorem count_extra (b : Pbuilder)
    (hv : ∀ v, b.debootstrap = some v ∨ b.mirror = some v ∨ b.arch = some v →
      v ≠ "--debootstrap" ∧ v ≠ "--mirror" ∧ v ≠ "--architecture") :
    (b.get_extra_pbuilder_cmd.count "--debootstrap" =
      if b.debootstrap.isSome then 1 else 0) ∧
    (b.get_extra_pbuilder_cmd.count "--mirror" =
      if b.mirror.isSome then 1 else 0) ∧
    (b.get_extra_pbuilder_cmd.count "--architecture" =
      if b.arch.isSome then 1 else 0) := by
  have hd' := fun v (h : b.debootstrap = some v) => hv v (Or.inl h)
  have hm' := fun v (h : b.mirror = some v) => hv v (Or.inr (Or.inl h))
  have ha' := fun v (h : b.arch = some v) => hv v (Or.inr (Or.inr h))
  clear hv
  rcases hd : b.debootstrap with _ | d <;>
    rcases hm : b.mirror with _ | m <;>
    rcases ha : b.arch with _ | a <;>
    (try have Hd := hd' _ hd) <;>
    (try have Hm := hm' _ hm) <;>
    (try have Ha := ha' _ ha) <;>
    refine ⟨?_, ?_, ?_⟩ <;>
    simp_all [Pbuilder.get_extra_pbuilder_cmd, List.count_append,
      List.count_cons, List.count_nil]

/-- When the alternate-bootstrap-tool option is supplied, its two-token pair
is an adjacent block of the adapter output. -/
theorem extra_pair_debootstrap (b : Pbuilder) (v : String)
    (h : b.debootstrap = some v) :
    ∃ p q, b.get_extra_pbuilder_cmd = p ++ ["--debootstrap", v] ++ q := by
  refine ⟨[],
    (match b.mirror with | some m => ["--mirror", m] | none => []) ++
    (match b.arch with | some a => ["--architecture", a] | none => []), ?_⟩
  simp [Pbuilder.get_extra_pbuilder_cmd, h]

/-- When the mirror-override option is supplied, its two-token pair is an
adjacent block of the adapter output. -/
theorem extra_pair_mirror (b : Pbuilder) (v : String)
    (h : b.mirror = some v) :
    ∃ p q, b.get_extra_pbuilder_cmd = p ++ ["--mirror", v] ++ q := by
  refine ⟨(match b.debootstrap with
    | some d => ["--debootstrap", d] | none => []),
    (match b.arch with | some a => ["--architecture", a] | none => []), ?_⟩
  simp [Pbuilder.get_extra_pbuilder_cmd, h, List.append_assoc]

/-- When the target-architecture option is supplied, its two-token pair is an
adjacent block of the adapter output. -/
theorem extra_pair_arch (b : Pbuilder) (v : String)
    (h : b.arch = some v) :
    ∃ p q, b.get_extra_pbuilder_cmd = p ++ ["--architecture", v] ++ q := by
  refine ⟨(match b.debootstrap with
    | some d => ["--debootstrap", d] | none => []) ++
    (match b.mirror with | some m => ["--mirror", m] | none => []), [], ?_⟩
  simp [Pbuilder.get_extra_pbuilder_cmd, h, List.append_assoc]

/-- An adjacent block survives prepending. -/
theorem block_append_left (base mid pr : List String)
    (h : ∃ p q, mid = p ++ pr ++ q) : ∃ p q, base ++ mid = p ++ pr ++ q := by
  obtain ⟨p, q, rfl⟩ := h
  exact ⟨base ++ p, q, by simp [List.append_assoc]⟩

/-- An adjacent block survives appending. -/
theorem block_append_right (mid tail pr : List String)
    (h : ∃ p q, mid = p ++ pr ++ q) : ∃ p q, mid ++ tail = p ++ pr ++ q := by
  obtain ⟨p, q, rfl⟩ := h
  exact ⟨p, q ++ tail, by simp [List.append_assoc]⟩

/-- Counting over a command that is fixed tokens followed by the adapter
output: the fixed part contributes nothing. -/
theorem count_base_extra {f : String} {base extra2 : List String}
    (hb : f ∉ base) : (base ++ extra2).count f = extra2.count f := by
  simp [List.count_append, List.count_eq_zero.mpr hb]

/-- The same, with a trailing positional argument appended. -/
theorem count_base_extra_tail {f : String} {base extra2 tail : List String}
    (hb : f ∉ base) (ht : f ∉ tail) :
    ((base ++ extra2) ++ tail).count f = extra2.count f := by
  simp [List.count_append, List.count_eq_zero.mpr hb, List.count_eq_zero.mpr ht]

end Helpers

/-- C10: the `escape` step used by `init` wraps a configuration value in
double quotes exactly when the value contains a space and otherwise writes it
bare; in both cases the value's characters are emitted contiguously and
unaltered, so embedded double quotes, newlines or `=` characters are never
escaped or rejected — only the space character triggers quoting. -/
theorem escape_only_space_quotes (v : String) :
    (∃ pre post, (escape v).data = pre ++ v.data ++ post) ∧
    (v.data.contains ' ' = true → escape v = "\"" ++ v ++ "\"") ∧
    (v.data.contains ' ' = false → escape v = v) := by
  refine ⟨?_, ?_, ?_⟩
  · by_cases h : ' ' ∈ v.data
    · refine ⟨"\"".data, "\"".data, ?_⟩
      simp [escape, h, String.data_append]
    · exact ⟨[], [], by simp [escape, h]⟩
  · intro h
    have h' : ' ' ∈ v.data := by simpa using h
    simp [escape, h']
  · intro h
    have h' : ' ' ∉ v.data := by simpa using h
    simp [escape, h']

/-- C10 witness: a value holding a double quote, an `=` and a newline but no
space is written bare and unaltered, and a value holding a space is wrapped
in double quotes. -/
theorem escape_only_space_quotes_witness :
    escape "a\"=\nb" = "a\"=\nb" ∧ escape "has space" = "\"has space\"" :=
  ⟨(escape_only_space_quotes "a\"=\nb").2.2 (by decide),
   (escape_only_space_quotes "has space").2.1 (by decide)⟩

/-- C9: constructing a builder without a keyring option fails eagerly at
construction time with the typed missing-keyring rejection (the spec's
`ConfigurationError`; concretely the `opts['keyring']` lookup), before any
subprocess can be involved; and every successfully constructed builder holds
the supplied keyring, whose token appears on both the create and the update
command lines. -/
theorem keyring_eager_validation :
    (∀ (d : Distribution) (p : String) (opts : Opts), opts.keyring = none →
      Pbuilder.construct d p opts = .error ConfigurationError.missingKeyring) ∧
    (∀ (d : Distribution) (p : String) (opts : Opts) (b : Pbuilder),
      Pbuilder.construct d p opts = .ok b →
      opts.keyring = some b.keyring ∧
      ("--keyring=" ++ b.keyring) ∈ b.createCmd ∧
      ("--keyring=" ++ b.keyring) ∈ b.updateCmd) := by
  constructor
  · intro d p opts h
    simp [Pbuilder.construct, h]
  · intro d p opts b h
    rcases hk : opts.keyring with _ | k
    · simp [Pbuilder.construct, hk] at h
    · simp [Pbuilder.construct, hk] at h
      subst h
      refine ⟨rfl, ?_, ?_⟩ <;>
        simp [Pbuilder.createCmd, Pbuilder.updateCmd]

/-- C9 witness: at concrete inputs, construction with no keyring is the
missing-keyring error, and the constructed bare builder's create command
line holds its keyring token. -/
theorem keyring_eager_validation_witness :
    Pbuilder.construct sampleDistribution "/pb" {} =
      .error ConfigurationError.missingKeyring ∧
    ("--keyring=" ++ bareBuilder.keyring) ∈ bareBuilder.createCmd :=
  ⟨keyring_eager_validation.1 sampleDistribution "/pb" {} rfl,
   (keyring_eager_validation.2 sampleDistribution "/pb"
      { keyring := some "/usr/share/keyrings/k.gpg" } bareBuilder rfl).2.1⟩

/-- C3 (code bug): the directory loop of `init` never creates the skeleton
subdirectories: the list comprehension calls `os.path.join(self.path)`
without using its loop variable, so the list of paths to create is five
copies of the per-distribution root, and on an empty filesystem `init`
leaves the aptcache/result/build/hook directories missing while creating
only the root itself. -/
theorem init_never_creates_subdirs :
    (∀ b : Pbuilder,
      b.initPaths = [b.path, b.path, b.path, b.path, b.path] ∧
      joinPath b.path "aptcache" ∉ b.initPaths) ∧
    ((sampleBuilder.init FS.empty).pathExists
        (joinPath sampleBuilder.path "aptcache") = false ∧
     (sampleBuilder.init FS.empty).pathExists
        (joinPath sampleBuilder.path "result") = false ∧
     (sampleBuilder.init FS.empty).pathExists
        (joinPath sampleBuilder.path "build") = false ∧
     (sampleBuilder.init FS.empty).pathExists
        (joinPath sampleBuilder.path "hook") = false ∧
     (sampleBuilder.init FS.empty).pathExists sampleBuilder.path = true) := by
  constructor
  · intro b
    refine ⟨rfl, ?_⟩
    intro hmem
    simp [Pbuilder.initPaths] at hmem
    exact joinPath_ne_left b.path "aptcache" hmem
  · exact ⟨rfl, rfl, rfl, rfl, rfl⟩

/-- C4 counterexample: with extra repositories `["A", "B"]` the rendered
extra-repository value is `"A | B"` — the separator the code uses is
`" | "` (a pipe surrounded by spaces), so the rendering is not the
claimed `"A|B"`. -/
theorem othermirror_not_bare_pipe :
    sampleBuilder.distribution.extra = ["A", "B"] ∧
    sampleBuilder.othermirror = "A | B" ∧
    sampleBuilder.othermirror ≠ "A|B" :=
  ⟨rfl, rfl, by decide⟩

/-- C4 (amended): `init` renders the component list joined with single
spaces, the extra-repository list joined with `" | "` (pipe with one space on
each side), and any value containing a space double-quoted while values
without spaces are written bare — exercised end to end on the sample
profile's configuration file content. -/
theorem config_rendering :
    sampleBuilder.componentsValue = "main universe" ∧
    sampleBuilder.othermirror = "A | B" ∧
    escape "http://mirror.example/ubuntu/" = "http://mirror.example/ubuntu/" ∧
    escape "main universe" = "\"main universe\"" ∧
    sampleBuilder.configContent =
      "BASETGZ=/pb/lucid/base.tgz\nAPTCACHE=/pb/lucid/aptcache\nBUILDRESULT=/pb/lucid/result\nBUILDPLACE=/pb/lucid/build\nHOOKDIR=/pb/lucid/hook\nMIRRORSITE=http://mirror.example/ubuntu/\nDISTRIBUTION=lucid\nCOMPONENTS=\"main universe\"\nOTHERMIRROR=\"A | B\"" := by
  refine ⟨rfl, rfl, rfl, rfl, ?_⟩
  set_option maxRecDepth 10000 in rfl

/-- C6: running `init` twice in succession yields exactly the same
filesystem as running it once — in particular byte-identical configuration
file content the second time — and both the configuration file and the
distribution descriptor sidecar are overwritten wholesale on each call: their
contents after `init` are fixed functions of the builder alone, whatever the
files held before. -/
theorem init_idempotent_wholesale (b : Pbuilder) (fs : FS) :
    b.init (b.init fs) = b.init fs ∧
    (b.init fs).readFile b.configfile = some b.configContent ∧
    (b.init fs).readFile (joinPath b.path "distribution.json") =
      some (distributionJson b.distribution) := by
  have hne : joinPath b.path "distribution.json" ≠ b.configfile := by
    have := joinPath_ne_of_length b.path "distribution.json" "pbuilder.conf"
      (by decide)
    simpa [Pbuilder.configfile] using this
  refine ⟨?_, ?_, ?_⟩
  · have h2 : b.initDirs (b.init fs) = b.init fs := by
      rw [initDirs_eq, if_pos (pathExists_init_path b fs)]
    rw [init_eq b (b.init fs), h2, init_eq b fs]
    apply FS.ext
    · rfl
    · funext q
      simp only [FS.writeFile]
      by_cases h1 : q = b.configfile <;>
        by_cases hd : q = joinPath b.path "distribution.json" <;>
        simp [h1, hd]
  · rw [init_eq b fs]
    simp [FS.readFile, FS.writeFile]
  · rw [init_eq b fs]
    simp [FS.readFile, FS.writeFile, hne]

/-- C7: for each optional builder option in alternate-bootstrap-tool
(`debootstrap`), mirror-override, and target-architecture: when the option is
unset, the argument vectors for create, update and build contain no
corresponding flag token at all; when it is set, each vector contains the
flag exactly once, as an adjacent two-token flag/value pair; and the adapter
output is appended identically to all three modes (with the build mode's
trailing source locator after it).  The side conditions require only that the
caller-supplied locator, result directory and option values are not
themselves flag tokens. -/
theorem optional_overrides_flags (b : Pbuilder) (dsc resultdir : String)
    (hdsc : dsc ∉ flagToks) (hres : resultdir ∉ flagToks)
    (hv : ∀ v, b.debootstrap = some v ∨ b.mirror = some v ∨ b.arch = some v →
      v ≠ "--debootstrap" ∧ v ≠ "--mirror" ∧ v ≠ "--architecture") :
    (∀ cmd ∈ [b.createCmd, b.updateCmd, b.buildCmd dsc resultdir],
      (cmd.count "--debootstrap" = if b.debootstrap.isSome then 1 else 0) ∧
      (cmd.count "--mirror" = if b.mirror.isSome then 1 else 0) ∧
      (cmd.count "--architecture" = if b.arch.isSome then 1 else 0) ∧
      (∀ v, b.debootstrap = some v →
        ∃ p q, cmd = p ++ ["--debootstrap", v] ++ q) ∧
      (∀ v, b.mirror = some v → ∃ p q, cmd = p ++ ["--mirror", v] ++ q) ∧
      (∀ v, b.arch = some v →
        ∃ p q, cmd = p ++ ["--architecture", v] ++ q)) ∧
    (∃ p1 p2 p3,
      b.createCmd = p1 ++ b.get_extra_pbuilder_cmd ∧
      b.updateCmd = p2 ++ b.get_extra_pbuilder_cmd ∧
      b.buildCmd dsc resultdir = p3 ++ b.get_extra_pbuilder_cmd ++ [dsc]) := by
  obtain ⟨cd, cm, ca⟩ := count_extra b hv
  have hC : b.createCmd =
      ["sudo", "pbuilder", "--create", "--configfile", b.configfile,
       "--debootstrapopts", "--keyring=" ++ b.keyring] ++
      b.get_extra_pbuilder_cmd := rfl
  have hU : b.updateCmd =
      ["sudo", "pbuilder", "--update", "--override-config",
       "--configfile", b.configfile,
       "--debootstrapopts", "--keyring=" ++ b.keyring] ++
      b.get_extra_pbuilder_cmd := rfl
  have hB : b.buildCmd dsc resultdir =
      (["sudo", "pbuilder", "--build", "--configfile", b.configfile,
        "--buildresult", resultdir,
        "--debootstrapopts", "--debbuildopts -I -i -j9"] ++
       b.get_extra_pbuilder_cmd) ++ [dsc] := rfl
  have hftoks : ∀ f ∈ flagToks, ¬(f = dsc) ∧ ¬(f = resultdir) := by
    intro f hf
    exact ⟨fun e => hdsc (e ▸ hf), fun e => hres (e ▸ hf)⟩
  have htail : ∀ f ∈ flagToks, f ∉ ([dsc] : List String) := by
    intro f hf hmem
    simp at hmem
    exact (hftoks f hf).1 hmem
  constructor
  · intro cmd hcmd
    simp only [List.mem_cons, List.not_mem_nil, or_false] at hcmd
    rcases hcmd with rfl | rfl | rfl
    · refine ⟨?_, ?_, ?_, ?_, ?_, ?_⟩
      · rw [hC, count_base_extra (flag_not_mem_createBase b _ (by decide)), cd]
      · rw [hC, count_base_extra (flag_not_mem_createBase b _ (by decide)), cm]
      · rw [hC, count_base_extra (flag_not_mem_createBase b _ (by decide)), ca]
      · intro v hv'
        rw [hC]
        exact block_append_left _ _ _ (extra_pair_debootstrap b v hv')
      · intro v hv'
        rw [hC]
        exact block_append_left _ _ _ (extra_pair_mirror b v hv')
      · intro v hv'
        rw [hC]
        exact block_append_left _ _ _ (extra_pair_arch b v hv')
    · refine ⟨?_, ?_, ?_, ?_, ?_, ?_⟩
      · rw [hU, count_base_extra (flag_not_mem_updateBase b _ (by decide)), cd]
      · rw [hU, count_base_extra (flag_not_mem_updateBase b _ (by decide)), cm]
      · rw [hU, count_base_extra (flag_not_mem_updateBase b _ (by decide)), ca]
      · intro v hv'
        rw [hU]
        exact block_append_left _ _ _ (extra_pair_debootstrap b v hv')
      · intro v hv'
        rw [hU]
        exact block_append_left _ _ _ (extra_pair_mirror b v hv')
      · intro v hv'
        rw [hU]
        exact block_append_left _ _ _ (extra_pair_arch b v hv')
    · refine ⟨?_, ?_, ?_, ?_, ?_, ?_⟩
      · rw [hB, count_base_extra_tail
          (flag_not_mem_buildBase b resultdir _ (by decide)
            (hftoks _ (by decide)).2)
          (htail _ (by decide)), cd]
      · rw [hB, count_base_extra_tail
          (flag_not_mem_buildBase b resultdir _ (by decide)
            (hftoks _ (by decide)).2)
          (htail _ (by decide)), cm]
      · rw [hB, count_base_extra_tail
          (flag_not_mem_buildBase b resultdir _ (by decide)
            (hftoks _ (by decide)).2)
          (htail _ (by decide)), ca]
      · intro v hv'
        rw [hB]
        exact block_append_right _ _ _
          (block_append_left _ _ _ (extra_pair_debootstrap b v hv'))
      · intro v hv'
        rw [hB]
        exact block_append_right _ _ _
          (block_append_left _ _ _ (extra_pair_mirror b v hv'))
      · intro v hv'
        rw [hB]
        exact block_append_right _ _ _
          (block_append_left _ _ _ (extra_pair_arch b v hv'))
  · exact ⟨_, _, _, hC, hU, hB⟩

/-- C7 witness: for the sample builder (architecture set to `amd64`, the two
other options unset), the create command has one architecture flag and no
mirror flag, the build command carries the adjacent `--architecture amd64`
pair, and the update command has no debootstrap flag. -/
theorem optional_overrides_flags_witness :
    sampleBuilder.createCmd.count "--architecture" = 1 ∧
    sampleBuilder.createCmd.count "--mirror" = 0 ∧
    sampleBuilder.updateCmd.count "--debootstrap" = 0 ∧
    (∃ p q, sampleBuilder.buildCmd "/src/pkg.dsc" "/out" =
      p ++ ["--architecture", "amd64"] ++ q) := by
  have h := optional_overrides_flags sampleBuilder "/src/pkg.dsc" "/out"
    (by decide) (by decide)
    (by intro v hvv
        rcases hvv with hvv | hvv | hvv
        · exact absurd hvv (by simp [sampleBuilder])
        · exact absurd hvv (by simp [sampleBuilder])
        · have : "amd64" = v := Option.some.inj hvv
          subst this
          exact ⟨by decide, by decide, by decide⟩)
  have h1 := h.1 sampleBuilder.createCmd (by simp)
  have h2 := h.1 sampleBuilder.updateCmd (by simp)
  have h3 := h.1 (sampleBuilder.buildCmd "/src/pkg.dsc" "/out") (by simp)
  exact ⟨by simpa using h1.2.2.1, by simpa using h1.2.1,
    by simpa using h2.1, h3.2.2.2.2.2 "amd64" rfl⟩

/-- C8 counterexample: two failing builds differing only in the build
subprocess's exit code (2 versus 3) raise identical error objects, so the
typed error raised to the caller cannot carry the exit code. -/
theorem build_error_lacks_exit_code :
    (sampleBuilder.build "/src/pkg.dsc" "/out" (fun _ => 2) FS.empty).2.outcome =
      (sampleBuilder.build "/src/pkg.dsc" "/out" (fun _ => 3) FS.empty).2.outcome ∧
    (sampleBuilder.build "/src/pkg.dsc" "/out" (fun _ => 2) FS.empty).2.outcome =
      .error { dsc := "/src/pkg.dsc" } :=
  ⟨rfl, rfl⟩

/-- C8 (amended): for every failed build (nonzero build-subprocess exit) the
typed error object carries exactly the source locator and nothing more; the
exit code is recorded in the single logged error line, not in the error
object. -/
theorem build_error_payload (b : Pbuilder) (dsc resultdir : String)
    (invoker : List String → Int) (fs : FS)
    (h : invoker (b.buildCmd dsc resultdir) ≠ 0) :
    (b.build dsc resultdir invoker fs).2.outcome = .error { dsc := dsc } ∧
    (b.build dsc resultdir invoker fs).2.errorLog =
      ["Error building package " ++ dsc ++ ": " ++
        toString (invoker (b.buildCmd dsc resultdir))] := by
  simp [Pbuilder.build, h]

/-- C1: for every build call, if the build-mode subprocess exits nonzero then
the error line identifying the source locator and the exit code is logged and
the build-failure error carrying the source locator is raised; if it exits
zero, the call returns the changes-file path derived from the source
locator's basename pattern. -/
theorem build_outcome_spec (b : Pbuilder) (dsc resultdir : String)
    (invoker : List String → Int) (fs : FS) :
    (invoker (b.buildCmd dsc resultdir) ≠ 0 →
      (b.build dsc resultdir invoker fs).2.outcome = .error { dsc := dsc } ∧
      ("Error building package " ++ dsc ++ ": " ++
        toString (invoker (b.buildCmd dsc resultdir))) ∈
        (b.build dsc resultdir invoker fs).2.errorLog) ∧
    (invoker (b.buildCmd dsc resultdir) = 0 →
      (b.build dsc resultdir invoker fs).2.outcome =
        .ok (get_changes_file dsc)) := by
  constructor
  · intro h
    simp [Pbuilder.build, h]
  · intro h
    simp [Pbuilder.build, h]

/-- C1 witness: at a concrete profile, a build whose subprocess exits 2
raises the locator-carrying error and logs the identifying line, and a build
whose subprocess exits 0 returns the changes-file path derived from the
locator. -/
theorem build_outcome_spec_witness :
    ((sampleBuilder.build "/src/pkg.dsc" "/out" (fun _ => 2) FS.empty).2.outcome =
      .error { dsc := "/src/pkg.dsc" } ∧
     ("Error building package /src/pkg.dsc: 2") ∈
       (sampleBuilder.build "/src/pkg.dsc" "/out" (fun _ => 2) FS.empty).2.errorLog) ∧
    (sampleBuilder.build "/src/pkg.dsc" "/out" (fun _ => 0) FS.empty).2.outcome =
      .ok "/src/pkg.changes" := by
  refine ⟨?_, ?_⟩
  · exact (build_outcome_spec sampleBuilder "/src/pkg.dsc" "/out"
      (fun _ => 2) FS.empty).1 (by decide)
  · exact ((build_outcome_spec sampleBuilder "/src/pkg.dsc" "/out"
      (fun _ => 0) FS.empty).2 rfl).trans (by rfl)

/-- C5: within one build call, `init` runs first, then exactly one of the
create/update steps, then the build-mode subprocess, in that order; and the
whole result depends only on the invoker's answer for the build command —
the create/update exit code is discarded unread, so the build step proceeds
regardless of it. -/
theorem build_step_order (b : Pbuilder) (dsc resultdir : String)
    (f g : List String → Int) (fs : FS)
    (hagree : f (b.buildCmd dsc resultdir) = g (b.buildCmd dsc resultdir)) :
    b.build dsc resultdir f fs = b.build dsc resultdir g fs ∧
    ∃ img, (b.build dsc resultdir f fs).2.trace =
        [Step.initStep, img, Step.buildStep (b.buildCmd dsc resultdir)] ∧
      (img = Step.createStep b.createCmd ∨ img = Step.updateStep b.updateCmd) := by
  constructor
  · simp [Pbuilder.build, hagree]
  · by_cases h : (b.init fs).pathExists (joinPath b.path "base.tgz")
    · refine ⟨Step.updateStep b.updateCmd, ?_, Or.inr rfl⟩
      by_cases hrc : f (b.buildCmd dsc resultdir) ≠ 0 <;>
        simp [Pbuilder.build, h, hrc]
    · refine ⟨Step.createStep b.createCmd, ?_, Or.inl rfl⟩
      by_cases hrc : f (b.buildCmd dsc resultdir) ≠ 0 <;>
        simp [Pbuilder.build, h, hrc]

/-- C5 witness: at a concrete profile, two invokers that agree on the build
command (but disagree on create/update) give identical results, and the trace
is init, then one image step, then the build step. -/
theorem build_step_order_witness :
    sampleBuilder.build "/src/pkg.dsc" "/out" (fun _ => 0) FS.empty =
      sampleBuilder.build "/src/pkg.dsc" "/out"
        (fun c => if c = sampleBuilder.buildCmd "/src/pkg.dsc" "/out" then 0 else 7)
        FS.empty ∧
    ∃ img, (sampleBuilder.build "/src/pkg.dsc" "/out" (fun _ => 0) FS.empty).2.trace =
        [Step.initStep, img,
         Step.buildStep (sampleBuilder.buildCmd "/src/pkg.dsc" "/out")] ∧
      (img = Step.createStep sampleBuilder.createCmd ∨
       img = Step.updateStep sampleBuilder.updateCmd) :=
  build_step_order sampleBuilder "/src/pkg.dsc" "/out" (fun _ => 0)
    (fun c => if c = sampleBuilder.buildCmd "/src/pkg.dsc" "/out" then 0 else 7)
    FS.empty (by simp)

/-- C2: at the time of the check (after `init`), a missing base-image file
makes the build call invoke the create-mode subprocess and an existing one
makes it invoke the update-mode subprocess; the update command line carries
`--override-config` while the create command line does not. -/
theorem base_image_create_or_update (b : Pbuilder) (dsc resultdir : String)
    (invoker : List String → Int) (fs : FS)
    (hv : ∀ v, b.debootstrap = some v ∨ b.mirror = some v ∨ b.arch = some v →
      v ≠ "--override-config") :
    ((b.init fs).pathExists (joinPath b.path "base.tgz") = false →
      (b.build dsc resultdir invoker fs).2.trace =
        [Step.initStep, Step.createStep b.createCmd,
         Step.buildStep (b.buildCmd dsc resultdir)]) ∧
    ((b.init fs).pathExists (joinPath b.path "base.tgz") = true →
      (b.build dsc resultdir invoker fs).2.trace =
        [Step.initStep, Step.updateStep b.updateCmd,
         Step.buildStep (b.buildCmd dsc resultdir)]) ∧
    "--override-config" ∈ b.updateCmd ∧
    "--override-config" ∉ b.createCmd := by
  refine ⟨?_, ?_, ?_, ?_⟩
  · intro h
    by_cases hrc : invoker (b.buildCmd dsc resultdir) ≠ 0 <;>
      simp [Pbuilder.build, h, hrc]
  · intro h
    by_cases hrc : invoker (b.buildCmd dsc resultdir) ≠ 0 <;>
      simp [Pbuilder.build, h, hrc]
  · simp [Pbuilder.updateCmd]
  · intro hmem
    simp [Pbuilder.createCmd] at hmem
    rcases hmem with h | h | h
    · exact joinPath_ne_of_no_slash b.path "pbuilder.conf" "--override-config"
        (by decide) h.symm
    · exact keyring_token_ne b.keyring "--override-config" (by decide) h.symm
    · rcases (mem_extra_iff b "--override-config").mp h with
        ⟨v, hv', h'⟩ | ⟨v, hv', h'⟩ | ⟨v, hv', h'⟩ <;>
        rcases h' with h' | h'
      · exact absurd h' (by decide)
      · exact (hv v (Or.inl hv') h'.symm).elim
      · exact absurd h' (by decide)
      · exact (hv v (Or.inr (Or.inl hv')) h'.symm).elim
      · exact absurd h' (by decide)
      · exact (hv v (Or.inr (Or.inr hv')) h'.symm).elim

/-- C2 witness: on an empty filesystem the sample build chooses the
create-mode subprocess, and on a filesystem already holding `base.tgz` it
chooses the update-mode subprocess. -/
theorem base_image_create_or_update_witness :
    (sampleBuilder.build "/src/pkg.dsc" "/out" (fun _ => 0) FS.empty).2.trace =
      [Step.initStep, Step.createStep sampleBuilder.createCmd,
       Step.buildStep (sampleBuilder.buildCmd "/src/pkg.dsc" "/out")] ∧
    "--override-config" ∈ sampleBuilder.updateCmd ∧
    "--override-config" ∉ sampleBuilder.createCmd := by
  have h := base_image_create_or_update sampleBuilder "/src/pkg.dsc" "/out"
    (fun _ => 0) FS.empty
    (by intro v hv; rcases hv with hv | hv | hv
        · exact absurd hv (by simp [sampleBuilder])
        · exact absurd hv (by simp [sampleBuilder])
        · simp only [sampleBuilder] at hv
          cases Option.some.inj hv
          decide)
  exact ⟨h.1 (by rfl), h.2.2.1, h.2.2.2⟩

/-- C8 witness: a failing build at exit code 2 yields the locator-only error
and the logged error line naming the locator and the code. -/
theorem build_error_payload_witness :
    (sampleBuilder.build "/src/pkg.dsc" "/out" (fun _ => 2) FS.empty).2.outcome =
      .error { dsc := "/src/pkg.dsc" } ∧
    (sampleBuilder.build "/src/pkg.dsc" "/out" (fun _ => 2) FS.empty).2.errorLog =
      ["Error building package /src/pkg.dsc: 2"] := by
  have h := build_error_payload sampleBuilder "/src/pkg.dsc" "/out"
    (fun _ => 2) FS.empty (by decide)
  exact ⟨h.1, h.2.trans (by rfl)⟩

end Irgsh
